import Mathlib

/-!
# Cloak: the stream of the multiplexer and the user-manager API router

A shallow embedding of `internal/multiplex/stream.go` and of
`APIRouter.writeUserInfoHlr` in `internal/server/usermanager/api_router.go`.

* 32-bit counters are naturals with an explicit `% 2 ^ 32`.
* Every call a method makes on a collaborator (the session, the sorter's
  channel, the buffered pipe, the package-level random generator) is recorded,
  in program order, in the `trace` of the state, so that "no call is made" and
  "is done exactly once" are statements about that list.
* The methods are read sequentially: `writingM` only excludes `Write` and
  `Close` from each other in time and has no effect on a sequential run, and
  the send `s.newFrameCh <- nil` is the enqueue it performs (a send that finds
  the 1024 slots taken waits for the sorter, which is not scheduled here).
* `float64` values are the rationals they denote; each arithmetic operation
  rounds to the nearest binary64 value, ties to even.
-/

namespace Cloak

/-! ## Data model -/

/-- A byte slice; each element is meant to be below 256. -/
abbrev Bytes := List Nat

/-- A Go `error` value, identified by its message. -/
structure GoError where
  msg : String
deriving DecidableEq, Repr

/-- The package variable `ErrBrokenStream = errors.New("broken stream")`. -/
def ErrBrokenStream : GoError := ⟨"broken stream"⟩

/-- The wire unit `Frame`: `StreamID uint32`, `Seq uint32`, `Closing uint8`,
`Payload []byte`. -/
structure Frame where
  StreamID : Nat
  Seq : Nat
  Closing : Nat
  Payload : Bytes
deriving DecidableEq, Repr

/-- One call made by a method of `Stream` on something it does not own. -/
inductive Event where
  /-- The store `atomic.StoreUint32(&s.closed, 1)`. -/
  | storeClosed
  /-- The send `s.newFrameCh <- nil`. -/
  | chanSendNil
  /-- The call `s.sortedBuf.Close()`. -/
  | pipeClose
  /-- The call `s.sortedBuf.Len()`. -/
  | pipeLen
  /-- The call `s.sortedBuf.Read(buf)` with `len(buf) = n`. -/
  | pipeRead (n : Nat)
  /-- The call `s.session.obfs(f)` and the error it returned. -/
  | obfs (f : Frame) (err : Option GoError)
  /-- The call `s.session.sb.send(rec)`. -/
  | send (rec : Bytes)
  /-- The call `s.session.delStream(id)`. -/
  | delStream (id : Nat)
  /-- The call `prand.Seed(x)`. -/
  | seed (x : Int)
  /-- The call `prand.Float64()`. -/
  | float64
  /-- The call `prand.Read(pad)` with `len(pad) = n`. -/
  | randRead (n : Nat)
deriving DecidableEq, Repr

/-- Modelled from the spec: the `bufferedPipe` behind `sortedBuf`
(`bufferedPipe.go` is not among the sources): an ordered byte queue that can
be closed. -/
structure BufferedPipe where
  buf : Bytes
  closed : Bool
deriving DecidableEq, Repr

/-- Modelled from the spec: `NewBufferedPipe()`, an empty open pipe. -/
def NewBufferedPipe : BufferedPipe := ⟨[], false⟩

/-- Modelled from the spec: the end-of-stream error of a drained closed pipe. -/
def EOF : GoError := ⟨"EOF"⟩

/-- What a `Read` hands back: the count, the bytes copied into the buffer, the
error. -/
structure ReadResult where
  n : Int
  data : Bytes
  err : Option GoError
deriving DecidableEq, Repr

namespace BufferedPipe

/-- Modelled from the spec: `Len()`, the number of bytes buffered. -/
def Len (p : BufferedPipe) : Nat := p.buf.length

/-- Modelled from the spec: `Close()`; idempotent, buffered bytes stay
readable. -/
def Close (p : BufferedPipe) : BufferedPipe := { p with closed := true }

/-- Modelled from the spec: `Read(buf)` with `len(buf) = n`. With bytes
buffered it copies up to `n` of them; drained and closed it returns
`0, EOF`; drained and open it blocks, which is the result `none`. -/
def Read (p : BufferedPipe) (n : Nat) : Option ReadResult × BufferedPipe :=
  if p.buf = [] then
    if p.closed then (some ⟨0, [], some EOF⟩, p) else (none, p)
  else
    (some ⟨((p.buf.take n).length : Nat), p.buf.take n, none⟩, { p with buf := p.buf.drop n })

end BufferedPipe

/-- The part of `Session` that `Stream` calls: `obfs`, `sb.send` and
`delStream`, over a session state `σ` that each call may change. `obfs` and
`send` return both of their Go results. -/
structure Session (σ : Type) where
  obfs : σ → Frame → (Bytes × Option GoError) × σ
  send : σ → Bytes → (Int × Option GoError) × σ
  delStream : σ → Nat → σ

/-- The package-level generator of `math/rand` that `Close` uses, over a
generator state `ρ`: `Seed` replaces the whole state, `Float64` and each byte
of `Read` advance it. `Float64` returns a number of the half-open interval
from 0 to 1, as the library documents. -/
structure Rand (ρ : Type) where
  seed : Int → ρ
  float64 : ρ → ℚ × ρ
  byte : ρ → Nat × ρ
  float64_nonneg : ∀ g, 0 ≤ (float64 g).1
  float64_lt_one : ∀ g, (float64 g).1 < 1

/-- The `n` bytes that `prand.Read` writes into a slice of length `n`. -/
def Rand.read {ρ : Type} (R : Rand ρ) : Nat → ρ → Bytes × ρ
  | 0, g => ([], g)
  | n + 1, g =>
    let b := R.byte g
    let rest := Rand.read R n b.2
    (b.1 :: rest.1, rest.2)

/-- The struct `Stream` together with what its methods reach through it: the
state of the session behind `session`, the state of the package-level random
generator, and the record of the calls made so far. The four fields of the
frame sorter (`nextRecvSeq`, `rev`, `sh`, `wrapMode`) are not read or written
by any method of `stream.go` and are left out. -/
structure Stream (σ ρ : Type) where
  id : Nat
  session : σ
  newFrameCh : List (Option Frame)
  sortedBuf : BufferedPipe
  nextSendSeq : Nat
  closed : Nat
  rand : ρ
  trace : List Event

/-! ## binary64 arithmetic -/

/-- The nearest integer to `x`, a tie going to the even one. -/
def roundHalfEven (x : ℚ) : ℤ :=
  if x - ⌊x⌋ < 1 / 2 then ⌊x⌋
  else if 1 / 2 < x - ⌊x⌋ then ⌊x⌋ + 1
  else if ⌊x⌋ % 2 = 0 then ⌊x⌋ else ⌊x⌋ + 1

/-- The binary exponent of the binade of `x` in binary64 (subnormals share the
lowest one). -/
def float64Exp (x : ℚ) : ℤ := max (Int.log 2 |x|) (-1022)

/-- The spacing of binary64 values around `x`: 52 fraction bits. -/
def ulp (x : ℚ) : ℚ := (2 : ℚ) ^ (float64Exp x - 52)

/-- Rounding to the nearest binary64 value, ties to even (no overflow: the
values met here stay below 512). -/
def float64Round (x : ℚ) : ℚ := roundHalfEven (x / ulp x) * ulp x

/-- The product of two `float64` values. -/
def fmul (a b : ℚ) : ℚ := float64Round (a * b)

/-- The sum of two `float64` values. -/
def fadd (a b : ℚ) : ℚ := float64Round (a + b)

/-- The expression `int(math.Floor(r*200 + 300))` of `Close`. -/
def padLen (r : ℚ) : Int := ⌊fadd (fmul r 200) 300⌋

/-- The same expression where the compiler fuses the multiplication and the
addition into one rounding, as the language permits. -/
def padLenFused (r : ℚ) : Int := ⌊float64Round (r * 200 + 300)⌋

/-! ## The methods of `Stream` -/

section Methods

variable {σ ρ : Type}

/-- The function `makeStream`: a stream with the given id on the given session,
an empty channel, a fresh pipe, both counters zero. -/
def makeStream (id : Nat) (sesh : σ) (g : ρ) : Stream σ ρ :=
  { id := id, session := sesh, newFrameCh := [], sortedBuf := NewBufferedPipe,
    nextSendSeq := 0, closed := 0, rand := g, trace := [] }

/-- The method `isClosed`: `atomic.LoadUint32(&s.closed) == 1`. -/
def isClosed (s : Stream σ ρ) : Bool := s.closed == 1

/-- The call `s.sortedBuf.Read(buf)` made from `Stream.Read`. -/
def sortedBufRead (s : Stream σ ρ) (n : Nat) : Option ReadResult × Stream σ ρ :=
  let r := s.sortedBuf.Read n
  (r.1, { s with sortedBuf := r.2, trace := s.trace ++ [Event.pipeRead n] })

/-- The method `Stream.Read` on a buffer of length `n`; `none` is a read that
blocks. -/
def Read (s : Stream σ ρ) (n : Nat) : Option ReadResult × Stream σ ρ :=
  if n = 0 then
    if isClosed s then (some ⟨0, [], some ErrBrokenStream⟩, s)
    else (some ⟨0, [], none⟩, s)
  else if isClosed s then
    if s.sortedBuf.Len = 0 then
      (some ⟨0, [], some ErrBrokenStream⟩, { s with trace := s.trace ++ [Event.pipeLen] })
    else
      sortedBufRead { s with trace := s.trace ++ [Event.pipeLen] } n
  else
    sortedBufRead s n

/-- The value of `atomic.AddUint32(&s.nextSendSeq, 1) - 1` in `uint32`
arithmetic, given the counter before the addition. -/
def fetchSeq (nextSendSeq : Nat) : Nat :=
  ((nextSendSeq + 1) % 2 ^ 32 + 2 ^ 32 - 1) % 2 ^ 32

/-- The method `Stream.Write`. -/
def Write (S : Session σ) (s : Stream σ ρ) (inp : Bytes) :
    (Int × Option GoError) × Stream σ ρ :=
  if isClosed s then ((0, some ErrBrokenStream), s)
  else
    let f : Frame :=
      { StreamID := s.id, Seq := fetchSeq s.nextSendSeq, Closing := 0, Payload := inp }
    let s1 := { s with nextSendSeq := (s.nextSendSeq + 1) % 2 ^ 32 }
    let o := S.obfs s1.session f
    let s2 := { s1 with session := o.2, trace := s1.trace ++ [Event.obfs f o.1.2] }
    match o.1.2 with
    | some err => ((0, some err), s2)
    | none =>
      let r := S.send s2.session o.1.1
      (r.1, { s2 with session := r.2, trace := s2.trace ++ [Event.send o.1.1] })

/-- The method `_close`: mark the stream closed, send `nil` to the sorter,
close the pipe. -/
def _close (s : Stream σ ρ) : Stream σ ρ :=
  let s1 := { s with closed := 1, trace := s.trace ++ [Event.storeClosed] }
  let s2 := { s1 with newFrameCh := s1.newFrameCh ++ [none],
                      trace := s1.trace ++ [Event.chanSendNil] }
  { s2 with sortedBuf := s2.sortedBuf.Close, trace := s2.trace ++ [Event.pipeClose] }

/-- The call `s.session.delStream(s.id)`. -/
def delStream (S : Session σ) (s : Stream σ ρ) : Stream σ ρ :=
  { s with session := S.delStream s.session s.id, trace := s.trace ++ [Event.delStream s.id] }

/-- The method `passiveClose`. -/
def passiveClose (S : Session σ) (s : Stream σ ρ) : Stream σ ρ :=
  delStream S (_close s)

/-- The closing frame that `Close` builds, with the generator state it leaves:
seed with the id, draw the padding length, fill the padding. The length given
to `make` is never negative (`length_closingFrame`), so `toNat` is exact. -/
def closingFrame (R : Rand ρ) (s : Stream σ ρ) : Frame × ρ :=
  let g0 := R.seed (s.id : Int)
  let r := R.float64 g0
  let pad := R.read (padLen r.1).toNat r.2
  ({ StreamID := s.id, Seq := fetchSeq s.nextSendSeq, Closing := 1, Payload := pad.1 }, pad.2)

/-- The method `Stream.Close`. -/
def Close (S : Session σ) (R : Rand ρ) (s : Stream σ ρ) : Option GoError × Stream σ ρ :=
  if isClosed s then (some ⟨"Already Closed"⟩, s)
  else
    let c := closingFrame R s
    let f := c.1
    let s1 := { s with
      rand := c.2,
      nextSendSeq := (s.nextSendSeq + 1) % 2 ^ 32,
      trace := s.trace ++
        [Event.seed (s.id : Int), Event.float64, Event.randRead f.Payload.length] }
    let o := S.obfs s1.session f
    let s2 := { s1 with session := o.2, trace := s1.trace ++ [Event.obfs f o.1.2] }
    let r := S.send s2.session o.1.1
    let s3 := { s2 with session := r.2, trace := s2.trace ++ [Event.send o.1.1] }
    (none, delStream S (_close s3))

/-- The method `closeNoDelMap`. -/
def closeNoDelMap (s : Stream σ ρ) : Stream σ ρ := _close s

/-! ## Sequential runs and what is read off a trace -/

/-- One sequential call on a stream. -/
inductive Op where
  | read (n : Nat)
  | write (inp : Bytes)
  | close
  | passiveClose
  | closeNoDelMap
deriving DecidableEq, Repr

/-- The state after one call. -/
def step (S : Session σ) (R : Rand ρ) (s : Stream σ ρ) : Op → Stream σ ρ
  | Op.read n => (Read s n).2
  | Op.write inp => (Write S s inp).2
  | Op.close => (Close S R s).2
  | Op.passiveClose => passiveClose S s
  | Op.closeNoDelMap => closeNoDelMap s

/-- The state after a sequence of calls, one after the other. -/
def run (S : Session σ) (R : Rand ρ) (s : Stream σ ρ) (ops : List Op) : Stream σ ρ :=
  ops.foldl (step S R) s

/-- The state after writing the payloads one after the other. -/
def writeAll (S : Session σ) (s : Stream σ ρ) (ps : List Bytes) : Stream σ ρ :=
  ps.foldl (fun t p => (Write S t p).2) s

end Methods

/-- The calls made between an earlier state and a later one. -/
def newEvents {σ ρ : Type} (before after : Stream σ ρ) : List Event :=
  after.trace.drop before.trace.length

/-- Reading a trace from the oldest call on: the frame last given to `obfs`
and not yet sent, and the frames whose record went to `send`. -/
def sentStep (st : Option Frame × List Frame) : Event → Option Frame × List Frame
  | Event.obfs f _ => (some f, st.2)
  | Event.send _ => (none, st.2 ++ st.1.toList)
  | _ => st

/-- The frames handed to the physical send, oldest first: each `send` carries
the record that the `obfs` call right before it returned for its frame. -/
def sentFrames (t : List Event) : List Frame := (t.foldl sentStep (none, [])).2

/-- The frames handed to `obfs`, oldest first. -/
def obfsFrames : List Event → List Frame
  | [] => []
  | Event.obfs f _ :: t => f :: obfsFrames t
  | _ :: t => obfsFrames t

/-- Whether an event is a data frame that `obfs` refused. -/
def isDataObfsFailure : Event → Bool
  | Event.obfs f (some _) => f.Closing == 0
  | _ => false

/-- Whether no `Write` of the trace failed at obfuscation. -/
def noDataObfsFailure (t : List Event) : Bool := t.all (fun e => !isDataObfsFailure e)

/-- The sequence number and closing flag of a frame. -/
def seqAndFlag (f : Frame) : Nat × Nat := (f.Seq, f.Closing)

/-- How many times the teardown of `_close` ran in a trace: it is the only
place that stores the closed flag. -/
def teardownCount (t : List Event) : Nat := t.count Event.storeClosed

/-! ## The handler `writeUserInfoHlr` -/

/-- The struct `UserInfo` as the handler uses it: the id and six optional
numbers (`*int32`, `*int64`). -/
structure UserInfo where
  UID : Bytes
  SessionsCap : Option Int
  UpRate : Option Int
  DownRate : Option Int
  UpCredit : Option Int
  DownCredit : Option Int
  ExpiryTime : Option Int
deriving DecidableEq, Repr

def DefaultSessionsCap : Int := 4
def DefaultUpRate : Int := 10 * 1024 * 1024 * 1024
def DefaultDownRate : Int := 10 * 1024 * 1024 * 1024
def DefaultUpCredit : Int := 10 * 1024 * 1024 * 1024 * 1024 * 1024
def DefaultDownCredit : Int := 10 * 1024 * 1024 * 1024 * 1024 * 1024
def DefaultExpiryTime : Int := 4849059490

def StatusBadRequest : Nat := 400
def StatusInternalServerError : Nat := 500
def StatusCreated : Nat := 201

/-- An `http.ResponseWriter`: the status line that went out, if any, and the
body written so far. -/
structure ResponseWriter where
  status : Option Nat
  body : String
deriving DecidableEq, Repr

/-- The method `WriteHeader`: the first call fixes the status, a later one is
superfluous and ignored. -/
def ResponseWriter.WriteHeader (w : ResponseWriter) (code : Nat) : ResponseWriter :=
  match w.status with
  | some _ => w
  | none => { w with status := some code }

/-- The function `http.Error`: write the header with the code, then the
message and a newline. -/
def httpError (w : ResponseWriter) (error : String) (code : Nat) : ResponseWriter :=
  let w1 := w.WriteHeader code
  { w1 with body := w1.body ++ error ++ "\n" }

/-- What the handler reaches from outside: the decoder
`base64.URLEncoding.DecodeString`, the JSON decoding of a request body of type
`β` into a `UserInfo`, and `manager.WriteUserInfo` over a manager state `μ`. -/
structure Api (β μ : Type) where
  DecodeString : String → Except GoError Bytes
  Decode : β → Except GoError UserInfo
  WriteUserInfo : μ → UserInfo → Option GoError × μ

/-- The state a handler works on: the response, the manager, and the
arguments of the calls made to `manager.WriteUserInfo`, oldest first. -/
structure Handling (μ : Type) where
  w : ResponseWriter
  manager : μ
  written : List UserInfo

/-- The six defaulting statements of the handler: a field that is nil or zero
takes its default. -/
def fillDefaults (u : UserInfo) : UserInfo :=
  let u1 := if u.SessionsCap = none ∨ u.SessionsCap = some 0
    then { u with SessionsCap := some DefaultSessionsCap } else u
  let u2 := if u1.UpRate = none ∨ u1.UpRate = some 0
    then { u1 with UpRate := some DefaultUpRate } else u1
  let u3 := if u2.DownRate = none ∨ u2.DownRate = some 0
    then { u2 with DownRate := some DefaultDownRate } else u2
  let u4 := if u3.UpCredit = none ∨ u3.UpCredit = some 0
    then { u3 with UpCredit := some DefaultUpCredit } else u3
  let u5 := if u4.DownCredit = none ∨ u4.DownCredit = some 0
    then { u4 with DownCredit := some DefaultDownCredit } else u4
  if u5.ExpiryTime = none ∨ u5.ExpiryTime = some 0
    then { u5 with ExpiryTime := some DefaultExpiryTime } else u5

/-- The handler `APIRouter.writeUserInfoHlr` on a request whose path variable
`UID` is `b64UID` and whose body is `body`. -/
def writeUserInfoHlr {β μ : Type} (A : Api β μ) (h : Handling μ) (b64UID : String)
    (body : β) : Handling μ :=
  if b64UID = "" then
    { h with w := httpError h.w "UID cannot be empty" StatusBadRequest }
  else
    match A.DecodeString b64UID with
    | Except.error err => { h with w := httpError h.w err.msg StatusBadRequest }
    | Except.ok UID =>
      match A.Decode body with
      | Except.error err => { h with w := httpError h.w err.msg StatusBadRequest }
      | Except.ok uinfo0 =>
        let w1 := if UID ≠ uinfo0.UID
          then httpError h.w "UID mismatch" StatusBadRequest else h.w
        let uinfo := fillDefaults uinfo0
        let r := A.WriteUserInfo h.manager uinfo
        let w2 := match r.1 with
          | some err => httpError w1 err.msg StatusInternalServerError
          | none => w1
        { w := w2.WriteHeader StatusCreated, manager := r.2,
          written := h.written ++ [uinfo] }

/-! ## Concrete collaborators, for evaluating the methods -/

/-- A session whose `obfs` returns the payload as the record and fails on an
empty payload of a data frame, whose `send` reports the record length, and
whose state counts the streams deleted. -/
def demoSession : Session Nat where
  obfs := fun n f =>
    if f.Closing = 0 ∧ f.Payload = [] then (([], some ⟨"obfs failed"⟩), n)
    else ((f.Payload, none), n)
  send := fun n rec => (((rec.length : Nat), none), n)
  delStream := fun n _ => n + 1

/-- A session as `demoSession` whose `obfs` and `send` always fail. -/
def failingSession : Session Nat where
  obfs := fun n _ => (([], some ⟨"obfs failed"⟩), n)
  send := fun n _ => ((0, some ⟨"send failed"⟩), n)
  delStream := fun n _ => n + 1

/-- A generator whose state is a counter: `Seed` sets it to the seed, a
`Float64` is a quarter of the counter modulo four, a byte is the counter
modulo 256. -/
def demoRand : Rand Nat where
  seed := fun x => x.toNat
  float64 := fun g => (((g % 4 : Nat) : ℚ) / 4, g + 1)
  byte := fun g => (g % 256, g + 1)
  float64_nonneg := fun g => by positivity
  float64_lt_one := fun g => by
    have h : ((g % 4 : Nat) : ℚ) < 4 := by exact_mod_cast Nat.mod_lt g (by decide)
    show ((g % 4 : Nat) : ℚ) / 4 < 1
    rw [div_lt_one (by norm_num)]
    exact h

/-- A stored user with every field unset but the id. -/
def bareUser (uid : Bytes) : UserInfo :=
  { UID := uid, SessionsCap := none, UpRate := none, DownRate := none,
    UpCredit := none, DownCredit := none, ExpiryTime := none }

/-- A router whose manager is the list of records written, whose requests
carry their body as the JSON decoder reads it, and whose path decoder is
base64url on the two strings it knows: `AA==` is the byte 0 and `AQ==` the
byte 1. -/
def demoApi : Api (Except GoError UserInfo) (List UserInfo) where
  DecodeString := fun s =>
    if s = "AA==" then Except.ok [0]
    else if s = "AQ==" then Except.ok [1]
    else Except.error ⟨"illegal base64 data"⟩
  Decode := fun b => b
  WriteUserInfo := fun m u => (none, m ++ [u])

/-! ## Basic facts about the methods -/

section Facts

variable {σ ρ : Type}

theorem isClosed_close_aux (s : Stream σ ρ) : isClosed (_close s) = true := rfl

theorem trace_close_aux (s : Stream σ ρ) :
    (_close s).trace = s.trace ++ [Event.storeClosed, Event.chanSendNil, Event.pipeClose] := by
  simp [_close]

theorem Close_of_closed (S : Session σ) (R : Rand ρ) (s : Stream σ ρ)
    (h : isClosed s = true) : Close S R s = (some ⟨"Already Closed"⟩, s) := by
  simp [Close, h]

theorem Write_of_closed (S : Session σ) (s : Stream σ ρ) (inp : Bytes)
    (h : isClosed s = true) : Write S s inp = ((0, some ErrBrokenStream), s) := by
  simp [Write, h]

theorem isClosed_Close (S : Session σ) (R : Rand ρ) (s : Stream σ ρ) :
    isClosed (Close S R s).2 = true := by
  by_cases h : isClosed s = true
  · rw [Close_of_closed S R s h]; exact h
  · have h0 : isClosed s = false := Bool.eq_false_iff.mpr h
    have e : (Close S R s).2.closed = 1 := by simp [Close, h0, delStream, _close]
    simp [isClosed, e]

theorem Close_of_open (S : Session σ) (R : Rand ρ) (s : Stream σ ρ)
    (h : isClosed s = false) : (Close S R s).1 = none := by
  simp [Close, h]

/-- The trace an open stream has after `Close`: seed, draw, fill, obfuscate,
send, the three steps of the teardown, and the removal from the session. -/
theorem trace_Close_of_open (S : Session σ) (R : Rand ρ) (s : Stream σ ρ)
    (h : isClosed s = false) :
    (Close S R s).2.trace = s.trace ++
      [Event.seed (s.id : Int), Event.float64,
       Event.randRead (closingFrame R s).1.Payload.length,
       Event.obfs (closingFrame R s).1 (S.obfs s.session (closingFrame R s).1).1.2,
       Event.send (S.obfs s.session (closingFrame R s).1).1.1,
       Event.storeClosed, Event.chanSendNil, Event.pipeClose, Event.delStream s.id] := by
  simp [Close, h, delStream, _close]

theorem isClosed_step (S : Session σ) (R : Rand ρ) (s : Stream σ ρ) (op : Op)
    (h : isClosed s = true) : isClosed (step S R s op) = true := by
  cases op with
  | read n =>
    simp only [step, Read, sortedBufRead, h]
    split_ifs <;> exact h
  | write inp => simp only [step, Write_of_closed S s inp h]; exact h
  | close => exact isClosed_Close S R s
  | passiveClose => rfl
  | closeNoDelMap => rfl

theorem isClosed_run (S : Session σ) (R : Rand ρ) (ops : List Op) (s : Stream σ ρ)
    (h : isClosed s = true) : isClosed (run S R s ops) = true := by
  induction ops generalizing s with
  | nil => exact h
  | cons op ops ih => exact ih (step S R s op) (isClosed_step S R s op h)

theorem newEvents_append (s t : Stream σ ρ) (l : List Event) (h : t.trace = s.trace ++ l) :
    newEvents s t = l := by
  simp [newEvents, h]

theorem newEvents_self (s : Stream σ ρ) : newEvents s s = [] := by
  simp [newEvents]

/-- The teardown of `passiveClose` runs whether or not the stream is closed
already. -/
theorem newEvents_passiveClose (S : Session σ) (s : Stream σ ρ) :
    newEvents s (passiveClose S s) =
      [Event.storeClosed, Event.chanSendNil, Event.pipeClose, Event.delStream s.id] := by
  apply newEvents_append
  simp [passiveClose, delStream, _close]

/-- The teardown of `closeNoDelMap` runs whether or not the stream is closed
already. -/
theorem newEvents_closeNoDelMap (s : Stream σ ρ) :
    newEvents s (closeNoDelMap s) =
      [Event.storeClosed, Event.chanSendNil, Event.pipeClose] := by
  apply newEvents_append
  simp [closeNoDelMap, _close]

end Facts

/-! ## The claims on `Read`, `Write` and `Close` -/

section Claims

variable {σ ρ : Type}

/-- C1: once `Close` has returned, whatever calls follow, a `Write` returns
`(0, ErrBrokenStream)` and leaves the whole state as it was: it makes no call,
so nothing reaches `obfs` or `send`. -/
theorem Write_after_Close (S : Session σ) (R : Rand ρ) (s : Stream σ ρ) (ops : List Op)
    (inp : Bytes) :
    Write S (run S R (Close S R s).2 ops) inp
        = ((0, some ErrBrokenStream), run S R (Close S R s).2 ops) ∧
      newEvents (run S R (Close S R s).2 ops)
        (Write S (run S R (Close S R s).2 ops) inp).2 = [] := by
  have h := Write_of_closed S (run S R (Close S R s).2 ops) inp
    (isClosed_run S R ops _ (isClosed_Close S R s))
  refine ⟨h, ?_⟩
  rw [h]
  exact newEvents_self _

/-- C2: on an open stream the first `Close` returns nil and the second returns
the error "Already Closed" and changes nothing, so it sends no frame; over the
two calls one closing frame is obfuscated and sent and the three steps of the
teardown (the closed flag stored, nil sent to the sorter, the pipe closed) are
made once each. -/
theorem Close_twice (S : Session σ) (R : Rand ρ) (s : Stream σ ρ)
    (h : isClosed s = false) :
    (Close S R s).1 = none ∧
      Close S R (Close S R s).2 = (some ⟨"Already Closed"⟩, (Close S R s).2) ∧
      newEvents s (Close S R (Close S R s).2).2 =
        [Event.seed (s.id : Int), Event.float64,
         Event.randRead (closingFrame R s).1.Payload.length,
         Event.obfs (closingFrame R s).1 (S.obfs s.session (closingFrame R s).1).1.2,
         Event.send (S.obfs s.session (closingFrame R s).1).1.1,
         Event.storeClosed, Event.chanSendNil, Event.pipeClose, Event.delStream s.id] ∧
      teardownCount (newEvents s (Close S R (Close S R s).2).2) = 1 ∧
      (newEvents s (Close S R (Close S R s).2).2).count Event.chanSendNil = 1 ∧
      (newEvents s (Close S R (Close S R s).2).2).count Event.pipeClose = 1 ∧
      (Close S R (Close S R s).2).2.closed = 1 ∧
      (Close S R (Close S R s).2).2.newFrameCh = s.newFrameCh ++ [none] ∧
      (Close S R (Close S R s).2).2.sortedBuf = s.sortedBuf.Close := by
  have h2 := Close_of_closed S R (Close S R s).2 (isClosed_Close S R s)
  have ht := newEvents_append s (Close S R s).2 _ (trace_Close_of_open S R s h)
  refine ⟨Close_of_open S R s h, h2, ?_, ?_, ?_, ?_, ?_, ?_, ?_⟩
  · rw [h2]; exact ht
  · rw [h2, teardownCount, ht]; simp [List.count_cons]
  · rw [h2, ht]; simp [List.count_cons]
  · rw [h2, ht]; simp [List.count_cons]
  · rw [h2]; simp [Close, h, delStream, _close]
  · rw [h2]; simp [Close, h, delStream, _close]
  · rw [h2]; simp [Close, h, delStream, _close]

theorem Close_twice_witness :
    isClosed (makeStream 1 0 0 : Stream Nat Nat) = false ∧
      (Close demoSession demoRand (makeStream 1 0 0)).1 = none ∧
      Close demoSession demoRand (Close demoSession demoRand (makeStream 1 0 0)).2
        = (some ⟨"Already Closed"⟩, (Close demoSession demoRand (makeStream 1 0 0)).2) :=
  ⟨rfl, (Close_twice demoSession demoRand (makeStream 1 0 0) rfl).1,
    (Close_twice demoSession demoRand (makeStream 1 0 0) rfl).2.1⟩

/-- C3: a `Read` with a buffer of length zero returns at once, `(0, nil)` on
an open stream and `(0, ErrBrokenStream)` on a closed one, and leaves the
state as it was, the pipe and the record of calls included, whatever the pipe
holds. -/
theorem Read_zero (s : Stream σ ρ) :
    Read s 0 = (some ⟨0, [], if isClosed s then some ErrBrokenStream else none⟩, s) ∧
      newEvents s (Read s 0).2 = [] := by
  have h : Read s 0 = (some ⟨0, [], if isClosed s then some ErrBrokenStream else none⟩, s) := by
    cases hc : isClosed s <;> simp [Read, hc]
  refine ⟨h, ?_⟩
  rw [h]
  exact newEvents_self s

/-- C4: with a buffer that is not empty, `Read` on a closed stream whose pipe
is drained returns `(0, ErrBrokenStream)` without reading the pipe; in every
other case it returns what the pipe's `Read` returns for that buffer and
leaves the pipe as that read leaves it. -/
theorem Read_nonempty (s : Stream σ ρ) (n : Nat) (hn : n ≠ 0) :
    (isClosed s = true → s.sortedBuf.Len = 0 →
        (Read s n).1 = some ⟨0, [], some ErrBrokenStream⟩ ∧
        (Read s n).2.sortedBuf = s.sortedBuf ∧
        newEvents s (Read s n).2 = [Event.pipeLen]) ∧
      (¬ (isClosed s = true ∧ s.sortedBuf.Len = 0) →
        (Read s n).1 = (s.sortedBuf.Read n).1 ∧
        (Read s n).2.sortedBuf = (s.sortedBuf.Read n).2) := by
  constructor
  · intro hc hl
    refine ⟨by simp [Read, hn, hc, hl], by simp [Read, hn, hc, hl], ?_⟩
    apply newEvents_append
    simp [Read, hn, hc, hl]
  · intro hne
    cases hc : isClosed s
    · simp [Read, hn, hc, sortedBufRead]
    · have hl : ¬ s.sortedBuf.Len = 0 := fun hl => hne ⟨hc, hl⟩
      simp [Read, hn, hc, hl, sortedBufRead]

theorem Read_nonempty_witness :
    (3 : Nat) ≠ 0 ∧
      (Read (closeNoDelMap (makeStream 1 0 0 : Stream Nat Nat)) 3).1
        = some ⟨0, [], some ErrBrokenStream⟩ :=
  ⟨by decide, ((Read_nonempty (closeNoDelMap (makeStream 1 0 0 : Stream Nat Nat)) 3
    (by decide)).1 rfl rfl).1⟩

/-- C6, as the code has it: on an open stream `Write` returns the error of a
failed obfuscation without calling `send`, and otherwise returns what `send`
returns, its error included; `Close` returns nil whatever `obfs` and `send`
return for the closing frame, and the stream is closed afterwards. -/
theorem failure_returned_by_Write_dropped_by_Close (S : Session σ) (R : Rand ρ)
    (s : Stream σ ρ) (inp : Bytes) (h : isClosed s = false) :
    (∀ e, (S.obfs s.session ⟨s.id, fetchSeq s.nextSendSeq, 0, inp⟩).1.2 = some e →
        (Write S s inp).1 = (0, some e) ∧
        newEvents s (Write S s inp).2
          = [Event.obfs ⟨s.id, fetchSeq s.nextSendSeq, 0, inp⟩ (some e)]) ∧
      ((S.obfs s.session ⟨s.id, fetchSeq s.nextSendSeq, 0, inp⟩).1.2 = none →
        (Write S s inp).1
          = (S.send (S.obfs s.session ⟨s.id, fetchSeq s.nextSendSeq, 0, inp⟩).2
              (S.obfs s.session ⟨s.id, fetchSeq s.nextSendSeq, 0, inp⟩).1.1).1) ∧
      (Close S R s).1 = none ∧ isClosed (Close S R s).2 = true := by
  refine ⟨?_, ?_, Close_of_open S R s h, isClosed_Close S R s⟩
  · intro e he
    constructor
    · simp [Write, h, he]
    · apply newEvents_append
      simp [Write, h, he]
  · intro he
    simp [Write, h, he]

theorem failure_returned_by_Write_dropped_by_Close_witness :
    isClosed (makeStream 7 0 0 : Stream Nat Nat) = false ∧
      (Write failingSession (makeStream 7 0 0 : Stream Nat Nat) [1]).1
        = (0, some ⟨"obfs failed"⟩) ∧
      (Close failingSession demoRand (makeStream 7 0 0)).1 = none :=
  ⟨rfl,
    ((failure_returned_by_Write_dropped_by_Close failingSession demoRand
      (makeStream 7 0 0) [1] rfl).1 ⟨"obfs failed"⟩ rfl).1,
    (failure_returned_by_Write_dropped_by_Close failingSession demoRand
      (makeStream 7 0 0) [1] rfl).2.2.1⟩

/-- C6 fails for `Close`: on an open stream whose session fails both to
obfuscate and to send the closing frame, `Close` returns nil. -/
theorem Close_returns_nil_on_failure :
    isClosed (makeStream 7 0 0 : Stream Nat Nat) = false ∧
      (failingSession.obfs 0 (closingFrame demoRand (makeStream 7 0 0 : Stream Nat Nat)).1).1.2
        = some ⟨"obfs failed"⟩ ∧
      (failingSession.send 0 []).1.2 = some ⟨"send failed"⟩ ∧
      Event.send [] ∈ (Close failingSession demoRand (makeStream 7 0 0)).2.trace ∧
      (Close failingSession demoRand (makeStream 7 0 0)).1 = none := by
  refine ⟨rfl, rfl, rfl, ?_, Close_of_open _ _ _ rfl⟩
  rw [trace_Close_of_open failingSession demoRand (makeStream 7 0 0) rfl]
  simp [failingSession]

/-- C7 fails on the code: after `Close` on a fresh stream, `passiveClose` runs
the three steps of the teardown a second time. -/
theorem teardown_twice_by_Close_then_passiveClose :
    (run demoSession demoRand (makeStream 1 0 0) [Op.close, Op.passiveClose]).trace.drop 5 =
        [Event.storeClosed, Event.chanSendNil, Event.pipeClose, Event.delStream 1,
         Event.storeClosed, Event.chanSendNil, Event.pipeClose, Event.delStream 1] ∧
      teardownCount
        (run demoSession demoRand (makeStream 1 0 0) [Op.close, Op.passiveClose]).trace = 2 := by
  have h : (run demoSession demoRand (makeStream 1 0 0) [Op.close, Op.passiveClose]).trace
      = (Close demoSession demoRand (makeStream 1 0 0)).2.trace ++
        [Event.storeClosed, Event.chanSendNil, Event.pipeClose, Event.delStream 1] := by
    simp [run, step, passiveClose, delStream, trace_close_aux, Close, isClosed, makeStream,
      _close]
  rw [h, trace_Close_of_open demoSession demoRand (makeStream 1 0 0) rfl]
  constructor
  · simp [makeStream]
  · simp [teardownCount, List.count_cons, makeStream]

end Claims

/-! ## The padding length in binary64 arithmetic -/

theorem roundHalfEven_le (x : ℚ) (B : ℤ) (h : x ≤ B) : roundHalfEven x ≤ B := by
  have hf : (⌊x⌋ : ℚ) ≤ x := Int.floor_le x
  have h1 : ⌊x⌋ ≤ B := by exact_mod_cast hf.trans h
  have h2 : ¬ (x - ⌊x⌋ < 1 / 2) → ⌊x⌋ + 1 ≤ B := by
    intro hh
    have : (⌊x⌋ : ℚ) < B := by linarith
    have : ⌊x⌋ < B := by exact_mod_cast this
    omega
  unfold roundHalfEven
  split_ifs with a b c
  · exact h1
  · exact h2 a
  · exact h1
  · exact h2 a

theorem le_roundHalfEven (x : ℚ) (A : ℤ) (h : (A : ℚ) ≤ x) : A ≤ roundHalfEven x := by
  have h1 : A ≤ ⌊x⌋ := Int.le_floor.mpr h
  unfold roundHalfEven
  split_ifs <;> omega

theorem ulp_pos (x : ℚ) : 0 < ulp x := by
  unfold ulp
  positivity

theorem float64Exp_le (x : ℚ) (h : |x| < 2 ^ 53) : float64Exp x ≤ 52 := by
  unfold float64Exp
  apply max_le _ (by norm_num)
  rcases (abs_nonneg x).eq_or_lt with h0 | h0
  · rw [← h0, Int.log_zero_right]; norm_num
  · have : Int.log 2 |x| < 53 := by
      rw [← Int.lt_zpow_iff_log_lt (by norm_num) h0]
      norm_num
      exact h
    omega

theorem int_eq_mul_ulp (x : ℚ) (c : ℤ) (h : |x| < 2 ^ 53) :
    (c : ℚ) = ((c * 2 ^ (52 - float64Exp x).toNat : ℤ) : ℚ) * ulp x := by
  have he := float64Exp_le x h
  have hk : float64Exp x - 52 = -((52 - float64Exp x).toNat : ℤ) := by
    rw [Int.toNat_of_nonneg (by omega)]; ring
  unfold ulp
  rw [hk, zpow_neg, zpow_natCast]
  push_cast
  field_simp

theorem float64Round_le (x : ℚ) (b : ℤ) (h : |x| < 2 ^ 53) (hb : x ≤ b) :
    float64Round x ≤ b := by
  have hu := ulp_pos x
  have hb2 := int_eq_mul_ulp x b h
  have h1 : x / ulp x ≤ ((b * 2 ^ (52 - float64Exp x).toNat : ℤ) : ℚ) := by
    rw [div_le_iff₀ hu, ← hb2]; exact hb
  have h2 := roundHalfEven_le _ _ h1
  have h3 : (roundHalfEven (x / ulp x) : ℚ) ≤ ((b * 2 ^ (52 - float64Exp x).toNat : ℤ) : ℚ) := by
    exact_mod_cast h2
  unfold float64Round
  calc (roundHalfEven (x / ulp x) : ℚ) * ulp x
      ≤ ((b * 2 ^ (52 - float64Exp x).toNat : ℤ) : ℚ) * ulp x :=
        mul_le_mul_of_nonneg_right h3 hu.le
    _ = b := hb2.symm

theorem le_float64Round (x : ℚ) (a : ℤ) (h : |x| < 2 ^ 53) (ha : (a : ℚ) ≤ x) :
    (a : ℚ) ≤ float64Round x := by
  have hu := ulp_pos x
  have ha2 := int_eq_mul_ulp x a h
  have h1 : ((a * 2 ^ (52 - float64Exp x).toNat : ℤ) : ℚ) ≤ x / ulp x := by
    rw [le_div_iff₀ hu, ← ha2]; exact ha
  have h2 := le_roundHalfEven _ _ h1
  have h3 : ((a * 2 ^ (52 - float64Exp x).toNat : ℤ) : ℚ) ≤ (roundHalfEven (x / ulp x) : ℚ) := by
    exact_mod_cast h2
  unfold float64Round
  calc (a : ℚ) = ((a * 2 ^ (52 - float64Exp x).toNat : ℤ) : ℚ) * ulp x := ha2
    _ ≤ (roundHalfEven (x / ulp x) : ℚ) * ulp x := mul_le_mul_of_nonneg_right h3 hu.le

theorem padLen_bounds (r : ℚ) (h0 : 0 ≤ r) (h1 : r < 1) : 300 ≤ padLen r ∧ padLen r ≤ 500 := by
  have hx0 : (0 : ℚ) ≤ r * 200 := by positivity
  have hx1 : r * 200 ≤ 200 := by linarith
  have hxa : |r * 200| < 2 ^ 53 := by rw [abs_of_nonneg hx0]; norm_num; linarith
  have t0 : ((0 : ℤ) : ℚ) ≤ fmul r 200 := le_float64Round _ 0 hxa (by simpa using hx0)
  have t1 : fmul r 200 ≤ ((200 : ℤ) : ℚ) := float64Round_le _ 200 hxa (by simpa using hx1)
  push_cast at t0 t1
  have hya : |fmul r 200 + 300| < 2 ^ 53 := by
    rw [abs_of_nonneg (by linarith)]; norm_num; linarith
  have y0 : ((300 : ℤ) : ℚ) ≤ fadd (fmul r 200) 300 :=
    le_float64Round _ 300 hya (by push_cast; linarith)
  have y1 : fadd (fmul r 200) 300 ≤ ((500 : ℤ) : ℚ) :=
    float64Round_le _ 500 hya (by push_cast; linarith)
  unfold padLen
  constructor
  · exact Int.le_floor.mpr y0
  · have := (Int.floor_le (fadd (fmul r 200) 300)).trans y1
    exact_mod_cast this

theorem padLenFused_bounds (r : ℚ) (h0 : 0 ≤ r) (h1 : r < 1) :
    300 ≤ padLenFused r ∧ padLenFused r ≤ 500 := by
  have hya : |r * 200 + 300| < 2 ^ 53 := by
    rw [abs_of_nonneg (by positivity)]; norm_num; linarith
  have y0 : ((300 : ℤ) : ℚ) ≤ float64Round (r * 200 + 300) :=
    le_float64Round _ 300 hya (by push_cast; linarith)
  have y1 : float64Round (r * 200 + 300) ≤ ((500 : ℤ) : ℚ) :=
    float64Round_le _ 500 hya (by push_cast; linarith)
  unfold padLenFused
  constructor
  · exact Int.le_floor.mpr y0
  · have := (Int.floor_le (float64Round (r * 200 + 300))).trans y1
    exact_mod_cast this

theorem float64Exp_eq (x : ℚ) (e : ℤ) (he : -1022 ≤ e) (h1 : (2 : ℚ) ^ e ≤ |x|)
    (h2 : |x| < (2 : ℚ) ^ (e + 1)) : float64Exp x = e := by
  have hpos : 0 < |x| := lt_of_lt_of_le (by positivity) h1
  have a : e ≤ Int.log 2 |x| := by
    rw [← Int.zpow_le_iff_le_log (by norm_num) hpos]
    exact_mod_cast h1
  have b : Int.log 2 |x| < e + 1 := by
    rw [← Int.lt_zpow_iff_log_lt (by norm_num) hpos]
    exact_mod_cast h2
  unfold float64Exp
  omega

theorem roundHalfEven_eq_floor (x : ℚ) (n : ℤ) (h1 : (n : ℚ) ≤ x) (h2 : x < n + 1 / 2) :
    roundHalfEven x = n := by
  have hf : ⌊x⌋ = n := by
    rw [Int.floor_eq_iff]; constructor <;> linarith
  unfold roundHalfEven
  rw [hf, if_pos (by linarith)]

theorem roundHalfEven_tie_odd (n : ℤ) (h : n % 2 = 1) :
    roundHalfEven ((n : ℚ) + 1 / 2) = n + 1 := by
  have hf : ⌊(n : ℚ) + 1 / 2⌋ = n := by
    rw [Int.floor_eq_iff]; constructor <;> linarith
  unfold roundHalfEven
  rw [hf, if_neg (by norm_num), if_neg (by norm_num), if_neg (by omega)]

theorem fmul_top : fmul (1 - 1 / 2 ^ 53) 200 = 200 - 1 / 2 ^ 45 := by
  have he : float64Exp ((1 - 1 / 2 ^ 53) * 200 : ℚ) = 7 := by
    apply float64Exp_eq _ 7 (by norm_num)
    · rw [abs_of_nonneg (by norm_num)]; norm_num
    · rw [abs_of_nonneg (by norm_num)]; norm_num
  have hu : ulp ((1 - 1 / 2 ^ 53) * 200 : ℚ) = 1 / 2 ^ 45 := by
    unfold ulp; rw [he]; norm_num
  unfold fmul float64Round
  rw [hu, roundHalfEven_eq_floor _ (200 * 2 ^ 45 - 1) (by norm_num) (by norm_num)]
  norm_num

theorem padLen_top : padLen (1 - 1 / 2 ^ 53) = 500 := by
  have he : float64Exp (200 - 1 / 2 ^ 45 + 300 : ℚ) = 8 := by
    apply float64Exp_eq _ 8 (by norm_num)
    · rw [abs_of_nonneg (by norm_num)]; norm_num
    · rw [abs_of_nonneg (by norm_num)]; norm_num
  have hu : ulp (200 - 1 / 2 ^ 45 + 300 : ℚ) = 1 / 2 ^ 44 := by
    unfold ulp; rw [he]; norm_num
  have hx : (200 - 1 / 2 ^ 45 + 300 : ℚ) / (1 / 2 ^ 44)
      = ((500 * 2 ^ 44 - 1 : ℤ) : ℚ) + 1 / 2 := by norm_num
  unfold padLen
  rw [fmul_top]
  unfold fadd float64Round
  rw [hu, hx, roundHalfEven_tie_odd _ (by norm_num)]
  norm_num

/-! ## The closing frame -/

section ClosingFrame

variable {σ ρ : Type}

theorem length_read (R : Rand ρ) (n : Nat) (g : ρ) : (R.read n g).1.length = n := by
  induction n generalizing g with
  | zero => rfl
  | succ n ih => simp [Rand.read, ih]

/-- The frame that `Close` hands to `obfs` on an open stream is
`closingFrame`, and it is the only one. -/
theorem obfsFrames_Close (S : Session σ) (R : Rand ρ) (s : Stream σ ρ)
    (h : isClosed s = false) :
    obfsFrames (newEvents s (Close S R s).2) = [(closingFrame R s).1] := by
  rw [newEvents_append s (Close S R s).2 _ (trace_Close_of_open S R s h)]
  rfl

theorem length_closingFrame (R : Rand ρ) (s : Stream σ ρ) :
    ((closingFrame R s).1.Payload.length : Int)
      = padLen (R.float64 (R.seed (s.id : Int))).1 := by
  have hb := padLen_bounds _ (R.float64_nonneg (R.seed (s.id : Int)))
    (R.float64_lt_one (R.seed (s.id : Int)))
  simp only [closingFrame, length_read]
  exact Int.toNat_of_nonneg (by omega)

/-- C8: on an open stream, with `r` the number of the interval from 0 to 1
that the generator draws, `Close` hands one frame to `obfs`; it has
`Closing = 1` and a padding of `floor(r*200 + 300)` bytes, computed in
binary64, which is at least 300 and at most 500. -/
theorem closing_frame_padding (S : Session σ) (R : Rand ρ) (s : Stream σ ρ) (r : ℚ)
    (h : isClosed s = false) (hr : (R.float64 (R.seed (s.id : Int))).1 = r)
    (h0 : 0 ≤ r) (h1 : r < 1) :
    obfsFrames (newEvents s (Close S R s).2) = [(closingFrame R s).1] ∧
      (closingFrame R s).1.StreamID = s.id ∧
      (closingFrame R s).1.Closing = 1 ∧
      ((closingFrame R s).1.Payload.length : Int) = padLen r ∧
      300 ≤ (closingFrame R s).1.Payload.length ∧
      (closingFrame R s).1.Payload.length ≤ 500 := by
  have hl := length_closingFrame R s
  rw [hr] at hl
  have hb := padLen_bounds r h0 h1
  refine ⟨obfsFrames_Close S R s h, rfl, rfl, hl, ?_, ?_⟩ <;> omega

theorem closing_frame_padding_witness :
    isClosed (makeStream 6 0 0 : Stream Nat Nat) = false ∧
      (closingFrame demoRand (makeStream 6 0 0 : Stream Nat Nat)).1.Closing = 1 ∧
      300 ≤ (closingFrame demoRand (makeStream 6 0 0 : Stream Nat Nat)).1.Payload.length ∧
      (closingFrame demoRand (makeStream 6 0 0 : Stream Nat Nat)).1.Payload.length ≤ 500 :=
  have w := closing_frame_padding demoSession demoRand (makeStream 6 0 0)
    (demoRand.float64 (demoRand.seed ((makeStream 6 0 0 : Stream Nat Nat).id : Int))).1
    rfl rfl (demoRand.float64_nonneg _) (demoRand.float64_lt_one _)
  ⟨rfl, w.2.2.1, w.2.2.2.2.1, w.2.2.2.2.2⟩

/-- C9, as the code has it: `Close` seeds the generator with the stream id
before it draws, so the padding of the closing frame, bytes and length, is a
function of the stream id alone: two `Close` calls on open streams with the
same id hand `obfs` frames with the same padding, whatever the state of the
generator, the session and the counters before each call. -/
theorem padding_determined_by_id (S : Session σ) (R : Rand ρ) (s t : Stream σ ρ)
    (hs : isClosed s = false) (ht : isClosed t = false) (hid : s.id = t.id) :
    (obfsFrames (newEvents s (Close S R s).2)).map Frame.Payload
        = (obfsFrames (newEvents t (Close S R t).2)).map Frame.Payload ∧
      (obfsFrames (newEvents s (Close S R s).2)).map (fun f => (f.Payload.length : Int))
        = [padLen (R.float64 (R.seed (s.id : Int))).1] := by
  rw [obfsFrames_Close S R s hs, obfsFrames_Close S R t ht]
  refine ⟨?_, ?_⟩
  · simp [closingFrame, hid]
  · simp only [List.map_cons, List.map_nil, length_closingFrame]

theorem padding_determined_by_id_witness :
    isClosed (makeStream 3 0 0 : Stream Nat Nat) = false ∧
      isClosed ({ (makeStream 3 8 17 : Stream Nat Nat) with nextSendSeq := 9 }) = false ∧
      (obfsFrames (newEvents (makeStream 3 0 0)
          (Close demoSession demoRand (makeStream 3 0 0)).2)).map Frame.Payload
        = (obfsFrames (newEvents { (makeStream 3 8 17 : Stream Nat Nat) with nextSendSeq := 9 }
          (Close demoSession demoRand
            { (makeStream 3 8 17 : Stream Nat Nat) with nextSendSeq := 9 }).2)).map
              Frame.Payload :=
  ⟨rfl, rfl, (padding_determined_by_id demoSession demoRand (makeStream 3 0 0)
    { (makeStream 3 8 17 : Stream Nat Nat) with nextSendSeq := 9 } rfl rfl rfl).1⟩

/-- C9 fails on the code: whatever the generator, no two `Close` calls on
open streams with the same id hand `obfs` closing frames whose paddings differ
in length. -/
theorem no_two_paddings_differ_for_one_id :
    ¬ ∃ (σ ρ : Type) (S : Session σ) (R : Rand ρ) (s t : Stream σ ρ),
        isClosed s = false ∧ isClosed t = false ∧ s.id = t.id ∧
        (obfsFrames (newEvents s (Close S R s).2)).map (fun f => f.Payload.length)
          ≠ (obfsFrames (newEvents t (Close S R t).2)).map (fun f => f.Payload.length) := by
  rintro ⟨σ, ρ, S, R, s, t, hs, ht, hid, hne⟩
  apply hne
  rw [obfsFrames_Close S R s hs, obfsFrames_Close S R t ht]
  simp [closingFrame, hid]

end ClosingFrame

/-! ## Sequence numbers -/

section SeqNumbers

variable {σ ρ : Type}

theorem fetchSeq_mod (k : Nat) : fetchSeq (k % 2 ^ 32) = k % 2 ^ 32 := by
  unfold fetchSeq
  norm_num
  omega

theorem succ_mod (k : Nat) : (k % 2 ^ 32 + 1) % 2 ^ 32 = (k + 1) % 2 ^ 32 := by
  norm_num

theorem writeAll_append (S : Session σ) (s : Stream σ ρ) (ps : List Bytes) (p : Bytes) :
    writeAll S s (ps ++ [p]) = (Write S (writeAll S s ps) p).2 := by
  simp [writeAll, List.foldl_append]

/-- What a `Write` on an open stream leaves: the counter one further, the
flag and the id as they were, and one `obfs` call, followed by one `send`
when the obfuscation succeeded. -/
theorem Write_of_open (S : Session σ) (s : Stream σ ρ) (inp : Bytes)
    (h : isClosed s = false) :
    isClosed (Write S s inp).2 = false ∧ (Write S s inp).2.id = s.id ∧
      (Write S s inp).2.nextSendSeq = (s.nextSendSeq + 1) % 2 ^ 32 ∧
      (Write S s inp).2.trace = s.trace ++
        (match (S.obfs s.session ⟨s.id, fetchSeq s.nextSendSeq, 0, inp⟩).1.2 with
          | some e => [Event.obfs ⟨s.id, fetchSeq s.nextSendSeq, 0, inp⟩ (some e)]
          | none => [Event.obfs ⟨s.id, fetchSeq s.nextSendSeq, 0, inp⟩ none,
              Event.send (S.obfs s.session ⟨s.id, fetchSeq s.nextSendSeq, 0, inp⟩).1.1]) := by
  have hc : s.closed ≠ 1 := by simpa [isClosed] using h
  cases he : (S.obfs s.session ⟨s.id, fetchSeq s.nextSendSeq, 0, inp⟩).1.2 <;>
    simp [Write, h, he, isClosed, hc]

/-- After any run of writes on a fresh stream the stream is open and its
counter is the number of writes; if no write failed at obfuscation, every
frame was sent and the frames sent are numbered from 0 on. -/
theorem writeAll_fresh (S : Session σ) (id : Nat) (sesh : σ) (g : ρ) (ps : List Bytes) :
    isClosed (writeAll S (makeStream id sesh g) ps) = false ∧
      (writeAll S (makeStream id sesh g) ps).id = id ∧
      (writeAll S (makeStream id sesh g) ps).nextSendSeq = ps.length % 2 ^ 32 ∧
      (noDataObfsFailure (writeAll S (makeStream id sesh g) ps).trace = true →
        ∃ fs, (writeAll S (makeStream id sesh g) ps).trace.foldl sentStep (none, [])
            = (none, fs) ∧
          fs.map seqAndFlag = (List.range ps.length).map (fun i => (i % 2 ^ 32, 0))) := by
  induction ps using List.reverseRecOn with
  | nil => exact ⟨rfl, rfl, rfl, fun _ => ⟨[], rfl, rfl⟩⟩
  | append_singleton ps p ih =>
    obtain ⟨hc, hid, hn, hfs⟩ := ih
    obtain ⟨wc, wid, wn, wt⟩ := Write_of_open S (writeAll S (makeStream id sesh g) ps) p hc
    rw [writeAll_append]
    refine ⟨wc, wid.trans hid, ?_, ?_⟩
    · rw [wn, hn, succ_mod, List.length_append, List.length_singleton]
    · rw [wt, hn, fetchSeq_mod, hid]
      intro hno
      simp only [noDataObfsFailure, List.all_append, Bool.and_eq_true] at hno
      obtain ⟨fs, hfold, hmap⟩ := hfs hno.1
      cases he : (S.obfs (writeAll S (makeStream id sesh g) ps).session
          ⟨id, ps.length % 2 ^ 32, 0, p⟩).1.2 with
      | some e =>
        rw [he] at hno
        simp [isDataObfsFailure] at hno
      | none =>
        refine ⟨fs ++ [⟨id, ps.length % 2 ^ 32, 0, p⟩], ?_, ?_⟩
        · simp [List.foldl_append, hfold, sentStep]
        · simp [List.range_succ, hmap, seqAndFlag]

/-- C5, as the code has it: in a sequential run of `Write` calls followed by
one `Close` on a fresh stream in which no `Write` failed at obfuscation, the
frames handed to the physical send are numbered 0, 1, 2, ... (mod 2^32) in
order with no gap, and the closing frame, the last one, takes the number after
that of the last data frame. -/
theorem seq_numbers_without_obfs_failure (S : Session σ) (R : Rand ρ) (id : Nat)
    (sesh : σ) (g : ρ) (ps : List Bytes)
    (h : noDataObfsFailure
      (Close S R (writeAll S (makeStream id sesh g) ps)).2.trace = true) :
    (sentFrames (Close S R (writeAll S (makeStream id sesh g) ps)).2.trace).map seqAndFlag
      = (List.range ps.length).map (fun i => (i % 2 ^ 32, 0))
        ++ [(ps.length % 2 ^ 32, 1)] := by
  obtain ⟨hc, _, hn, hfs⟩ := writeAll_fresh S id sesh g ps
  rw [trace_Close_of_open S R _ hc] at h ⊢
  simp only [noDataObfsFailure, List.all_append, Bool.and_eq_true] at h
  obtain ⟨fs, hfold, hmap⟩ := hfs h.1
  have hq := fetchSeq_mod ps.length
  norm_num at hq
  simp [sentFrames, List.foldl_append, hfold, sentStep, hmap, seqAndFlag, closingFrame, hn, hq]

theorem seq_numbers_without_obfs_failure_witness :
    noDataObfsFailure
        (Close demoSession demoRand
          (writeAll demoSession (makeStream 1 0 0) [[7], [8]])).2.trace = true ∧
      (sentFrames (Close demoSession demoRand
          (writeAll demoSession (makeStream 1 0 0) [[7], [8]])).2.trace).map seqAndFlag
        = [(0, 0), (1, 0), (2, 1)] :=
  ⟨by decide,
    seq_numbers_without_obfs_failure demoSession demoRand 1 0 0 [[7], [8]] (by decide)⟩

/-- C5 fails on the code: with a second `Write` that fails at obfuscation
between two that succeed, the data frames sent carry the numbers 0 and 2 and
the closing frame 3. -/
theorem seq_gap_after_failed_obfs :
    (sentFrames (Close demoSession demoRand
        (writeAll demoSession (makeStream 1 0 0) [[9], [], [5]])).2.trace).map seqAndFlag
      = [(0, 0), (2, 0), (3, 1)] := by
  decide

theorem obfsFrames_append (a b : List Event) :
    obfsFrames (a ++ b) = obfsFrames a ++ obfsFrames b := by
  induction a with
  | nil => rfl
  | cons e a ih => cases e <;> simp [obfsFrames, ih]

theorem obfsFrames_writeAll (S : Session σ) (id : Nat) (sesh : σ) (g : ρ) (ps : List Bytes) :
    (obfsFrames (writeAll S (makeStream id sesh g : Stream σ ρ) ps).trace).map seqAndFlag
      = (List.range ps.length).map (fun i => (i % 2 ^ 32, 0)) := by
  induction ps using List.reverseRecOn with
  | nil => rfl
  | append_singleton ps p ih =>
    obtain ⟨hc, hid, hn, _⟩ := writeAll_fresh S id sesh g ps
    obtain ⟨_, _, _, wt⟩ := Write_of_open S (writeAll S (makeStream id sesh g) ps) p hc
    rw [writeAll_append, wt, hn, fetchSeq_mod, hid, obfsFrames_append, List.map_append, ih]
    cases (S.obfs (writeAll S (makeStream id sesh g) ps).session
        ⟨id, ps.length % 2 ^ 32, 0, p⟩).1.2 <;>
      simp [obfsFrames, List.range_succ, seqAndFlag]

/-- Every `Write` on an open stream takes a sequence number, whether or not its
obfuscation succeeds: in a run of writes followed by `Close` on a fresh
stream, the frames handed to `obfs` are numbered 0, 1, 2, ... (mod 2^32), the
closing frame last. -/
theorem obfs_seq_numbers (S : Session σ) (R : Rand ρ) (id : Nat) (sesh : σ) (g : ρ)
    (ps : List Bytes) :
    (obfsFrames (Close S R (writeAll S (makeStream id sesh g) ps)).2.trace).map seqAndFlag
      = (List.range ps.length).map (fun i => (i % 2 ^ 32, 0))
        ++ [(ps.length % 2 ^ 32, 1)] := by
  obtain ⟨hc, _, hn, _⟩ := writeAll_fresh S id sesh g ps
  have hq := fetchSeq_mod ps.length
  rw [trace_Close_of_open S R _ hc, obfsFrames_append, List.map_append,
    obfsFrames_writeAll]
  simp [obfsFrames, seqAndFlag, closingFrame, hn]
  norm_num at hq
  exact hq

end SeqNumbers

/-! ## The handler of `POST /admin/users/UID` -/

section Handler

variable {β μ : Type}

/-- On a request whose path id and body both decode and differ, the handler
answers through `http.Error` with "UID mismatch" and goes on: it calls
`manager.WriteUserInfo` with the record of the body, defaults filled in. -/
theorem writeUserInfoHlr_of_mismatch (A : Api β μ) (h : Handling μ) (b64UID : String)
    (body : β) (UID : Bytes) (uinfo : UserInfo) (hne : b64UID ≠ "")
    (hd : A.DecodeString b64UID = Except.ok UID) (hj : A.Decode body = Except.ok uinfo)
    (hm : UID ≠ uinfo.UID) :
    (writeUserInfoHlr A h b64UID body).written = h.written ++ [fillDefaults uinfo] ∧
      (writeUserInfoHlr A h b64UID body).manager
        = (A.WriteUserInfo h.manager (fillDefaults uinfo)).2 ∧
      (h.w.status = none →
        (writeUserInfoHlr A h b64UID body).w.status = some StatusBadRequest) := by
  refine ⟨by simp [writeUserInfoHlr, hne, hd, hj], by simp [writeUserInfoHlr, hne, hd, hj], ?_⟩
  intro hw
  simp only [writeUserInfoHlr, hne, hd, hj, if_neg, if_pos, hm, not_false_eq_true, ne_eq]
  cases (A.WriteUserInfo h.manager (fillDefaults uinfo)).1 <;>
    simp [httpError, ResponseWriter.WriteHeader, hw]

/-- C10 fails on the code: for the path id `AA==` (the byte 0) and a body whose
id is the byte 1, the handler answers 400 "UID mismatch" and still calls
`manager.WriteUserInfo`, which stores the record of the body. -/
theorem writeUserInfoHlr_mismatch_still_writes :
    (writeUserInfoHlr demoApi ⟨⟨none, ""⟩, [], []⟩ "AA=="
        (Except.ok (bareUser [1]))).w = ⟨some 400, "UID mismatch\n"⟩ ∧
      (writeUserInfoHlr demoApi ⟨⟨none, ""⟩, [], []⟩ "AA=="
        (Except.ok (bareUser [1]))).written = [fillDefaults (bareUser [1])] ∧
      (writeUserInfoHlr demoApi ⟨⟨none, ""⟩, [], []⟩ "AA=="
        (Except.ok (bareUser [1]))).manager
        = [{ UID := [1], SessionsCap := some 4, UpRate := some 10737418240,
             DownRate := some 10737418240, UpCredit := some 11258999068426240,
             DownCredit := some 11258999068426240, ExpiryTime := some 4849059490 }] := by
  decide

end Handler

end Cloak
